import Mathlib

/-!
Shallow embedding of the Anvil runtime-analysis pipeline (Redstone-OS/anvil).

Each definition transcribes one Python function or constant of the repository;
the doc comment of a definition names its source.  Machine integers are `Nat`
with explicit `% 2 ^ w` where the source overflows; fallible code returns
`Option`; external effects (filesystem, subprocesses, wall-clock time) are
passed in as explicit parameters or oracle functions.
-/

/-! ## String and character utilities shared by the embedding -/

/-- Whitespace characters stripped by Python's `str.rstrip()` (ASCII set;
the captured log lines are ASCII). -/
def isPySpace (c : Char) : Bool :=
  c = ' ' || c = '\t' || c = '\n' || c = '\r' || c = '\x0b' || c = '\x0c'

/-- Python `str.rstrip()` on a character list. -/
def rstripList (s : List Char) : List Char :=
  (s.reverse.dropWhile isPySpace).reverse

/-- Python `str.rstrip()`. -/
def pyRstrip (s : String) : String :=
  ⟨rstripList s.data⟩

/-- Does `hay` start with `pat` (character-exact)? -/
def isPrefixList (pat hay : List Char) : Bool :=
  match pat, hay with
  | [], _ => true
  | _ :: _, [] => false
  | p :: ps, h :: hs => (h = p) && isPrefixList ps hs

/-- Does `hay` start with `pat`, comparing case-insensitively (ASCII fold,
matching Python's `re.IGNORECASE` on ASCII patterns)? -/
def isPrefixListCI (pat hay : List Char) : Bool :=
  match pat, hay with
  | [], _ => true
  | _ :: _, [] => false
  | p :: ps, h :: hs => (h.toLower = p.toLower) && isPrefixListCI ps hs

/-- Python's substring test `pat in hay`. -/
def containsSub (pat hay : List Char) : Bool :=
  isPrefixList pat hay ||
    match hay with
    | [] => false
    | _ :: hs => containsSub pat hs

/-- Python `str.replace(pat, rep)`, structurally recursive on a fuel that
bounds the scan length (each step consumes at least one character, so fuel
equal to the input length is enough). -/
def replaceSubFuel (p0 : Char) (ps rep : List Char) : Nat → List Char → List Char
  | _, [] => []
  | 0, s => s
  | fuel + 1, c :: cs =>
    if isPrefixList (p0 :: ps) (c :: cs) then
      rep ++ replaceSubFuel p0 ps rep fuel (cs.drop ps.length)
    else
      c :: replaceSubFuel p0 ps rep fuel cs

/-- Python `str.replace(pat, rep)`: left-to-right, non-overlapping.  The
pattern is passed with its first character split off so it is never empty. -/
def replaceSubList (p0 : Char) (ps rep : List Char) (s : List Char) : List Char :=
  replaceSubFuel p0 ps rep s.length s

/-- Is `c` one of `0-9a-fA-F`? -/
def isHexDigitAny (c : Char) : Bool :=
  ('0' ≤ c && c ≤ '9') || ('a' ≤ c && c ≤ 'f') || ('A' ≤ c && c ≤ 'F')

/-- Value of one hexadecimal digit. -/
def hexDigitVal (c : Char) : Nat :=
  if '0' ≤ c && c ≤ '9' then c.toNat - 48
  else if 'a' ≤ c && c ≤ 'f' then c.toNat - 87
  else if 'A' ≤ c && c ≤ 'F' then c.toNat - 55
  else 0

/-- Value of a hexadecimal digit string (most significant digit first). -/
def hexVal (s : List Char) : Nat :=
  s.foldl (fun a c => a * 16 + hexDigitVal c) 0

/-- Python `int(s, 16)` restricted to plain unsigned hexadecimal digit
strings (the register strings the pipeline feeds it; sign, whitespace and
`0x` prefixes have been removed by the callers before the call). -/
def parseHexPlain? (s : List Char) : Option Nat :=
  if s ≠ [] && s.all isHexDigitAny then some (hexVal s) else none

/-- One lowercase hexadecimal digit. -/
def hexDigitChar (n : Nat) : Char :=
  if n < 10 then Char.ofNat (48 + n) else Char.ofNat (87 + n)

/-- Lowercase hexadecimal digits, structurally recursive on a fuel that
bounds the digit count. -/
def natHexCharsFuel : Nat → Nat → List Char
  | 0, n => [hexDigitChar n]
  | fuel + 1, n =>
    if n < 16 then [hexDigitChar n]
    else natHexCharsFuel fuel (n / 16) ++ [hexDigitChar (n % 16)]

/-- Lowercase hexadecimal rendering of a `Nat`, no padding: Python
`f"\x7bn:x\x7d"`. -/
def natHexChars (n : Nat) : List Char :=
  natHexCharsFuel n n

/-- Lowercase hexadecimal rendering of a `Nat` as a string. -/
def natHex (n : Nat) : String :=
  ⟨natHexChars n⟩

/-- One uppercase hexadecimal digit. -/
def hexDigitCharUpper (n : Nat) : Char :=
  if n < 10 then Char.ofNat (48 + n) else Char.ofNat (55 + n)

/-- Uppercase hexadecimal digits, structurally recursive on a fuel that
bounds the digit count. -/
def natHexUpperCharsFuel : Nat → Nat → List Char
  | 0, n => [hexDigitCharUpper n]
  | fuel + 1, n =>
    if n < 16 then [hexDigitCharUpper n]
    else natHexUpperCharsFuel fuel (n / 16) ++ [hexDigitCharUpper (n % 16)]

/-- Uppercase hexadecimal rendering, no padding. -/
def natHexUpperChars (n : Nat) : List Char :=
  natHexUpperCharsFuel n n

/-- Python `f"\x7bn:02X\x7d"`: uppercase hexadecimal padded to two digits. -/
def natHex2Upper (n : Nat) : String :=
  let ds := natHexUpperChars n
  ⟨if ds.length < 2 then '0' :: ds else ds⟩

/-- Python `f"\x7bn:02x\x7d"`: lowercase hexadecimal padded to two digits. -/
def natHex2 (n : Nat) : String :=
  let ds := natHexChars n
  ⟨if ds.length < 2 then '0' :: ds else ds⟩

/-- Python `bytes.hex()`: two lowercase digits per byte. -/
def bytesHex (bs : List Nat) : String :=
  ⟨bs.foldr (fun b acc => hexDigitChar (b / 16 % 16) :: hexDigitChar (b % 16) :: acc) []⟩

/-! ## Path Resolver (src/src/core/paths.py)

`Paths.to_wsl` first calls `Path(path).resolve()`; the embedding models the
string rule that follows it, taking the already-resolved native path string
as input (`resolve` is the identity on a canonical absolute path).
`Paths.from_wsl` returns a `pathlib.Path`; the embedding models that value
by its string form, which the constructor leaves unchanged for the
drive-letter strings built here. -/

/-- The character map of Python `path_str.replace("\\", "/")`. -/
def backslashToSlash (c : Char) : Char :=
  if c = '\\' then '/' else c

/-- The character map of Python `wsl_path.replace("/", "\\")`. -/
def slashToBackslash (c : Char) : Char :=
  if c = '/' then '\\' else c

/-- Transcribes `Paths.to_wsl` (src/src/core/paths.py, lines 171-187), after
its `Path(path).resolve()` step: a `<LETTER>:` prefix becomes
`/mnt/<letter>` and backslashes become forward slashes. -/
def to_wsl (path_str : String) : String :=
  match path_str.data with
  | c0 :: ':' :: rest => ⟨'/' :: 'm' :: 'n' :: 't' :: '/' :: c0.toLower :: rest.map backslashToSlash⟩
  | cs => ⟨cs.map backslashToSlash⟩

/-- Transcribes `Paths.from_wsl` (src/src/core/paths.py, lines 189-201):
a `/mnt/<letter>` prefix becomes `<LETTER>:` and forward slashes become
backslashes. -/
def from_wsl (wsl_path : String) : String :=
  match wsl_path.data with
  | '/' :: 'm' :: 'n' :: 't' :: '/' :: d :: rest => ⟨d.toUpper :: ':' :: rest.map slashToBackslash⟩
  | cs => ⟨cs.map slashToBackslash⟩

/-- The drive letters a native absolute path can start with. -/
def driveLetters : List Char :=
  ['A', 'B', 'C', 'D', 'E', 'F', 'G', 'H', 'I', 'J', 'K', 'L', 'M',
   'N', 'O', 'P', 'Q', 'R', 'S', 'T', 'U', 'V', 'W', 'X', 'Y', 'Z']

/-! ## Pattern Registry (src/src/analysis/patterns.py)

`Pattern.__post_init__` compiles the trigger regex with `re.IGNORECASE` and
`Pattern.matches` is `bool(compiled.search(text))`.  The embedding carries
the compiled form as an explicit regular-expression syntax tree alongside
the declarative trigger string; matching is Brzozowski-derivative based and
decides exactly "some substring matches", which is what `re.search`'s
truth-value observes. -/

/-- Severity levels of `patterns.py` (`info < warning < critical`). -/
inductive Severity where
  | info
  | warning
  | critical
deriving DecidableEq, Repr

/-- The `_SEVERITY_ORDER` table of patterns.py. -/
def Severity.rank : Severity → Nat
  | .info => 0
  | .warning => 1
  | .critical => 2

/-- Python `max` over a non-empty severity list (`cur` is the running
maximum; Python keeps the current value on ties). -/
def sevMaxFrom (cur : Severity) : List Severity → Severity
  | [] => cur
  | x :: xs => sevMaxFrom (if cur.rank < x.rank then x else cur) xs

/-- Regular expressions as compiled by `re.compile(trigger, re.IGNORECASE)`:
the constructors cover exactly the syntax used by the registry's triggers
(`|`, concatenation, literals, `.`, `*`, bounded repetition expanded at
compile time, and one negated character class). -/
inductive Regex where
  | bot
  | eps
  | lit (c : Char)
  | anyc
  | cls (neg : Bool) (cs : List Char)
  | cat (a b : Regex)
  | alt (a b : Regex)
  | star (a : Regex)
deriving DecidableEq, Repr

/-- Does the regex accept the empty string? -/
def Regex.nullable : Regex → Bool
  | .bot => false
  | .eps => true
  | .lit _ => false
  | .anyc => false
  | .cls _ _ => false
  | .cat a b => a.nullable && b.nullable
  | .alt a b => a.nullable || b.nullable
  | .star _ => true

/-- Does one character match a literal under `re.IGNORECASE` (ASCII fold)? -/
def charMatchCI (pat c : Char) : Bool :=
  c.toLower = pat.toLower

/-- Brzozowski derivative with respect to one character; literals and
classes compare case-insensitively (`re.IGNORECASE`), and `.` matches any
character except a newline. -/
def Regex.deriv : Regex → Char → Regex
  | .bot, _ => .bot
  | .eps, _ => .bot
  | .lit p, c => if charMatchCI p c then .eps else .bot
  | .anyc, c => if c = '\n' then .bot else .eps
  | .cls neg cs, c =>
    let hit := cs.any (fun p => charMatchCI p c)
    if (if neg then !hit else hit) then .eps else .bot
  | .cat a b, c =>
    if a.nullable then .alt (.cat (a.deriv c) b) (b.deriv c)
    else .cat (a.deriv c) b
  | .alt a b, c => .alt (a.deriv c) (b.deriv c)
  | .star a, c => .cat (a.deriv c) (.star a)

/-- Does the regex accept some prefix of `s`? -/
def Regex.accPrefix : Regex → List Char → Bool
  | r, [] => r.nullable
  | r, c :: cs => r.nullable || (r.deriv c).accPrefix cs

/-- Truth value of Python `re.search`: does some substring of `s` match? -/
def Regex.searches (r : Regex) : List Char → Bool
  | [] => r.nullable
  | c :: cs => r.accPrefix (c :: cs) || r.searches cs

/-- Concatenation of a literal string, as a regex. -/
def rstr (s : String) : Regex :=
  s.data.foldr (fun c r => .cat (.lit c) r) .eps

/-- Greedy `.*`. -/
def rdotstar : Regex := .star .anyc

/-- `r` exactly `n` times (`r\x7bn\x7d`). -/
def rrep (r : Regex) : Nat → Regex
  | 0 => .eps
  | n + 1 => .cat r (rrep r n)

/-- `r` at least `n` times (`r\x7bn,\x7d`). -/
def ratleast (r : Regex) (n : Nat) : Regex :=
  .cat (rrep r n) (.star r)

/-- `r` between `m` and `n` times (`r\x7bm,n\x7d`), as `m` required copies
followed by `n - m` optional ones (equivalent for match existence). -/
def rrange (r : Regex) (m n : Nat) : Regex :=
  .cat (rrep r m) (rrep (.alt .eps r) (n - m))

/-- A known error pattern (`patterns.py` dataclass `Pattern`); `compiled`
carries the syntax tree of `re.compile(trigger, re.IGNORECASE)` that
`__post_init__` stores in `_compiled`. -/
structure Pattern where
  name : String
  trigger : String
  diagnosis : String
  solution : String
  severity : Severity := .warning
  compiled : Regex
deriving DecidableEq, Repr

/-- Transcribes `Pattern.matches` (patterns.py, lines 51-55): the compiled
form is always present after registration, so the truthiness guard of the
source is always taken. -/
def Pattern.matches (p : Pattern) (text : String) : Bool :=
  p.compiled.searches text.data

/-- The hexadecimal digit characters of the class `[0-9a-fA-F]`. -/
def hexClassChars : List Char :=
  "0123456789abcdefABCDEF".data

/-- Compiled form of the trigger `v=0e|check_exception.*0xe`. -/
def pageFaultRe : Regex :=
  .alt (rstr "v=0e") (.cat (rstr "check_exception") (.cat rdotstar (rstr "0xe")))

/-- Compiled form of the trigger `v=0d|check_exception.*0xd`. -/
def generalProtectionRe : Regex :=
  .alt (rstr "v=0d") (.cat (rstr "check_exception") (.cat rdotstar (rstr "0xd")))

/-- Compiled form of the trigger `v=08|check_exception.*0x8`. -/
def doubleFaultRe : Regex :=
  .alt (rstr "v=08") (.cat (rstr "check_exception") (.cat rdotstar (rstr "0x8")))

/-- Compiled form of the trigger `v=06|check_exception.*0x6`. -/
def invalidOpcodeRe : Regex :=
  .alt (rstr "v=06") (.cat (rstr "check_exception") (.cat rdotstar (rstr "0x6")))

/-- Compiled form of the trigger `v=00|check_exception.*0x0`. -/
def divideErrorRe : Regex :=
  .alt (rstr "v=00") (.cat (rstr "check_exception") (.cat rdotstar (rstr "0x0")))

/-- Compiled form of the trigger `v=06.*RIP=ffffffff|#UD.*kernel`. -/
def sseInKernelRe : Regex :=
  .alt (.cat (rstr "v=06") (.cat rdotstar (rstr "RIP=ffffffff")))
       (.cat (rstr "#UD") (.cat rdotstar (rstr "kernel")))

/-- Compiled form of the trigger `v=0e.*guard|CR2=.*0\x7b6,\x7d`. -/
def stackOverflowGuardRe : Regex :=
  .alt (.cat (rstr "v=0e") (.cat rdotstar (rstr "guard")))
       (.cat (rstr "CR2=") (.cat rdotstar (ratleast (.lit '0') 6)))

/-- Compiled form of the trigger
`v=0e.*CR2=0\x7b8,16\x7d|CR2=0x0[^0-9a-fA-F]`. -/
def nullPointerRe : Regex :=
  .alt (.cat (rstr "v=0e") (.cat rdotstar (.cat (rstr "CR2=") (rrange (.lit '0') 8 16))))
       (.cat (rstr "CR2=0x0") (.cls true hexClassChars))

/-- Compiled form of the trigger `RSP=0\x7b16\x7d|RSP is NULL`. -/
def rspNullRe : Regex :=
  .alt (.cat (rstr "RSP=") (rrep (.lit '0') 16)) (rstr "RSP is NULL")

/-- Compiled form of the trigger `(INT=0x20.*)\x7b10,\x7d|timer.*overflow`. -/
def timerStormRe : Regex :=
  .alt (ratleast (.cat (rstr "INT=0x20") rdotstar) 10)
       (.cat (rstr "timer") (.cat rdotstar (rstr "overflow")))

/-- Compiled form of the trigger `unimplemented.*msr|ignored.*msr`. -/
def unimplementedMsrRe : Regex :=
  .alt (.cat (rstr "unimplemented") (.cat rdotstar (rstr "msr")))
       (.cat (rstr "ignored") (.cat rdotstar (rstr "msr")))

/-- Transcribes `KNOWN_PATTERNS` (src/src/analysis/patterns.py, lines
62-217) as an association list in the dict's insertion order (Python dicts
iterate in insertion order). -/
def KNOWN_PATTERNS : List (String × Pattern) :=
  [("page_fault",
    { name := "page_fault"
      trigger := "v=0e|check_exception.*0xe"
      diagnosis := "Page Fault (#PF) - Access to unmapped or protected memory"
      solution := "Check CR2 for the faulting address. Common causes:\n  - NULL pointer dereference\n  - Stack overflow (unmapped guard page)\n  - Use-after-free / heap corruption\n  - Accessing non-canonical address"
      severity := .critical
      compiled := pageFaultRe }),
   ("general_protection",
    { name := "general_protection"
      trigger := "v=0d|check_exception.*0xd"
      diagnosis := "General Protection Fault (#GP) - Protection violation"
      solution := "Common causes:\n  - Invalid segment selector\n  - Privileged instruction in user mode\n  - Misaligned memory access\n  - Non-canonical address in register"
      severity := .critical
      compiled := generalProtectionRe }),
   ("double_fault",
    { name := "double_fault"
      trigger := "v=08|check_exception.*0x8"
      diagnosis := "Double Fault (#DF) - Exception during exception handling"
      solution := "Usually caused by:\n  - Kernel stack overflow\n  - Corrupted IDT\n  - Corrupted TSS\nCheck if IST is configured for the double fault handler."
      severity := .critical
      compiled := doubleFaultRe }),
   ("invalid_opcode",
    { name := "invalid_opcode"
      trigger := "v=06|check_exception.*0x6"
      diagnosis := "Invalid Opcode (#UD) - Illegal instruction"
      solution := "Common causes:\n  - SSE/AVX instruction in kernel (use soft-float)\n  - Corrupted code section\n  - Jump to data or unmapped memory\n  - CPU doesn\x27t support the instruction\nRun \x27anvil inspect --check-sse\x27 to find SSE violations."
      severity := .critical
      compiled := invalidOpcodeRe }),
   ("divide_error",
    { name := "divide_error"
      trigger := "v=00|check_exception.*0x0"
      diagnosis := "Divide Error (#DE) - Division by zero or overflow"
      solution := "Check division operations near RIP:\n  - DIV/IDIV with zero divisor\n  - Result doesn\x27t fit in destination register"
      severity := .critical
      compiled := divideErrorRe }),
   ("sse_in_kernel",
    { name := "sse_in_kernel"
      trigger := "v=06.*RIP=ffffffff|#UD.*kernel"
      diagnosis := "SSE/AVX instruction detected in kernel code"
      solution := "RedstoneOS kernel prohibits SSE/AVX. Check:\n  1. Target x86_64-redstone.json uses soft-float\n  2. No f32/f64 operations in kernel code\n  3. Use \x27objdump -d kernel | grep -E \"xmm|ymm\"\x27 to find"
      severity := .critical
      compiled := sseInKernelRe }),
   ("stack_overflow_guard",
    { name := "stack_overflow_guard"
      trigger := "v=0e.*guard|CR2=.*0\x7b6,\x7d"
      diagnosis := "Stack overflow - Hit guard page"
      solution := "Kernel stack exhausted. Causes:\n  - Infinite or deep recursion\n  - Large stack allocations (use heap instead)\n  - Initial stack too small"
      severity := .critical
      compiled := stackOverflowGuardRe }),
   ("null_pointer",
    { name := "null_pointer"
      trigger := "v=0e.*CR2=0\x7b8,16\x7d|CR2=0x0[^0-9a-fA-F]"
      diagnosis := "NULL pointer dereference"
      solution := "Accessing address 0x0. Check:\n  - Unwrapped Option::None\n  - Uninitialized pointer\n  - Use-after-free returning null"
      severity := .critical
      compiled := nullPointerRe }),
   ("rsp_null",
    { name := "rsp_null"
      trigger := "RSP=0\x7b16\x7d|RSP is NULL"
      diagnosis := "Stack pointer is NULL"
      solution := "RSP = 0 indicates:\n  - TSS not properly initialized\n  - Corrupted interrupt frame\n  - Missing kernel stack in privilege_stack_table[0]"
      severity := .critical
      compiled := rspNullRe }),
   ("timer_storm",
    { name := "timer_storm"
      trigger := "(INT=0x20.*)\x7b10,\x7d|timer.*overflow"
      diagnosis := "Timer IRQ storm - Excessive interrupts"
      solution := "Timer configured too fast or handler not ACKing properly. Check PIT/APIC timer frequency and EOI."
      severity := .warning
      compiled := timerStormRe }),
   ("unimplemented_msr",
    { name := "unimplemented_msr"
      trigger := "unimplemented.*msr|ignored.*msr"
      diagnosis := "Unimplemented MSR accessed"
      solution := "The kernel is using an MSR that QEMU doesn\x27t support. Usually safe to ignore if not causing crashes."
      severity := .info
      compiled := unimplementedMsrRe })]

/-- Transcribes `find_patterns` (patterns.py, lines 220-222); diagnostics.py
imports it under the name `find_matching_patterns`. -/
def find_patterns (text : String) : List Pattern :=
  (KNOWN_PATTERNS.map Prod.snd).filter (fun p => p.matches text)

/-- The name `find_matching_patterns` under which diagnostics.py imports the
registry search. -/
def find_matching_patterns (text : String) : List Pattern :=
  find_patterns text

/-! ## Stream Capture (src/src/runner/streams.py)

`DualStreamCapture` holds two bounded `deque(maxlen=1000)` ring buffers, an
unbounded merged timeline and two per-source line counters.  The capture
coroutines are modelled as pure folds over the sequence of lines each
producer reads before EOF/stop: timestamps (`datetime.now()`) are modelled
as 0, and UTF-8 decoding with replacement is the identity on the already
decoded lines.  `_emit` appends to the merged timeline and hands the entry
to every callback; the model returns the emitted entries in order. -/

/-- Stream source tags (`StreamSource`). -/
inductive StreamSource where
  | serial
  | cpu_log
deriving DecidableEq, Repr

/-- One captured line (`LogEntry`). -/
structure LogEntry where
  timestamp : Nat
  source : StreamSource
  line : String
  line_number : Nat := 0
deriving DecidableEq, Repr

/-- Default bound of the `serial_buffer` deque (`deque(maxlen=1000)`,
streams.py line 45). -/
def serial_buffer_maxlen : Nat := 1000

/-- Default bound of the `cpu_log_buffer` deque (`deque(maxlen=1000)`,
streams.py line 46). -/
def cpu_log_buffer_maxlen : Nat := 1000

/-- Appending to a `deque(maxlen=cap)`: the new element goes to the right
and the leftmost (oldest) elements beyond the bound are discarded. -/
def dequeAppend (cap : Nat) (buf : List α) (x : α) : List α :=
  let ys := buf ++ [x]
  if cap < ys.length then ys.drop (ys.length - cap) else ys

/-- Capture state: the buffers, the merged timeline and the per-source
counters of `DualStreamCapture`. -/
structure DualStreamCapture where
  serial_buffer : List LogEntry := []
  cpu_log_buffer : List LogEntry := []
  merged_timeline : List LogEntry := []
  serial_line_count : Nat := 0
  cpu_log_line_count : Nat := 0
deriving DecidableEq, Repr

/-- The freshly constructed capture object. -/
def DualStreamCapture.init : DualStreamCapture := {}

/-- Transcribes the loop body of `DualStreamCapture.capture_serial`
(streams.py, lines 64-94) over the non-empty raw lines read before EOF:
each line bumps the serial counter, is stripped of trailing whitespace,
becomes a `LogEntry`, is appended to the serial ring buffer and the merged
timeline, and is emitted.  Returns the final state and the emitted entries
in order. -/
def capture_serial (st : DualStreamCapture) : List String → DualStreamCapture × List LogEntry
  | [] => (st, [])
  | l :: rest =>
    let n := st.serial_line_count + 1
    let entry : LogEntry :=
      { timestamp := 0, source := .serial, line := pyRstrip l, line_number := n }
    let st' := { st with
      serial_line_count := n
      serial_buffer := dequeAppend serial_buffer_maxlen st.serial_buffer entry
      merged_timeline := st.merged_timeline ++ [entry] }
    let res := capture_serial st' rest
    (res.1, entry :: res.2)

/-- Transcribes the tail-follow loop of `DualStreamCapture.capture_cpu_log`
(streams.py, lines 96-136) over the non-empty raw lines read from the file:
each read line bumps the CPU-log counter, but a line that is empty after
stripping is skipped (`continue`) without emitting an entry. -/
def capture_cpu_log (st : DualStreamCapture) : List String → DualStreamCapture × List LogEntry
  | [] => (st, [])
  | l :: rest =>
    let n := st.cpu_log_line_count + 1
    let stripped := pyRstrip l
    if stripped = "" then
      capture_cpu_log { st with cpu_log_line_count := n } rest
    else
      let entry : LogEntry :=
        { timestamp := 0, source := .cpu_log, line := stripped, line_number := n }
      let st' := { st with
        cpu_log_line_count := n
        cpu_log_buffer := dequeAppend cpu_log_buffer_maxlen st.cpu_log_buffer entry
        merged_timeline := st.merged_timeline ++ [entry] }
      let res := capture_cpu_log st' rest
      (res.1, entry :: res.2)

/-- Python's tail slice `l[-k:]`: the last `k` elements, except that `-0`
is `0`, so `k = 0` yields the whole list. -/
def lastSlice (l : List α) (k : Nat) : List α :=
  if k = 0 then l else l.drop (l.length - k)

/-- Transcribes `DualStreamCapture.get_context` (streams.py, lines 142-144):
`list(self.merged_timeline[-lines:])`. -/
def get_context (st : DualStreamCapture) (lines : Nat := 50) : List LogEntry :=
  lastSlice st.merged_timeline lines

/-- Transcribes `DualStreamCapture.get_serial_context` (streams.py, lines
146-148): `list(self.serial_buffer)[-lines:]`. -/
def get_serial_context (st : DualStreamCapture) (lines : Nat := 50) : List LogEntry :=
  lastSlice st.serial_buffer lines

/-- Transcribes `DualStreamCapture.get_cpu_log_context` (streams.py, lines
150-152): `list(self.cpu_log_buffer)[-lines:]`. -/
def get_cpu_log_context (st : DualStreamCapture) (lines : Nat := 50) : List LogEntry :=
  lastSlice st.cpu_log_buffer lines

/-- Transcribes the `total_lines` property (streams.py, lines 168-171). -/
def total_lines (st : DualStreamCapture) : Nat :=
  st.merged_timeline.length

/-! ## Subprocess Gateway (src/src/runner/wsl.py)

`WslExecutor.run` spawns `wsl bash -c <cmd>` and awaits it.  The child's
behaviour is an input of the model: either the `wsl` launcher binary is
missing (`FileNotFoundError`) or the child completes with a return code and
output, and — when a non-zero, non-`None` timeout was passed — the wait may
elapse first (`asyncio.TimeoutError`).  UTF-8 decoding with replacement is
the identity on the modelled strings. -/

/-- Result of a WSL command execution (`WslResult`). -/
structure WslResult where
  success : Bool
  exit_code : Int
  stdout : String
  stderr : String
deriving DecidableEq, Repr

/-- How the spawned child behaves: the launcher is absent, or the child
runs to completion with a return code and captured output. -/
inductive SpawnOutcome where
  | notFound
  | completed (rc : Int) (stdout stderr : String)
deriving DecidableEq, Repr

/-- Python truthiness of the optional `timeout: Optional[float]` parameter
(`if timeout:`): present and non-zero. -/
def truthyTimeout : Option Nat → Bool
  | none => false
  | some t => t != 0

/-- Transcribes `WslExecutor.run` (src/src/runner/wsl.py, lines 47-105).
`elapsed` tells whether the awaited `communicate()` outlives the timeout
(only consulted when a truthy timeout was passed, since only then does the
source wrap the wait in `asyncio.wait_for`).  `process.returncode or 0`
yields `0` when the return code is `0` and the return code itself
otherwise. -/
def WslExecutor.run (outcome : SpawnOutcome) (timeout : Option Nat) (elapsed : Bool) : WslResult :=
  match outcome with
  | .notFound =>
    { success := false, exit_code := -1, stdout := "", stderr := "WSL not available" }
  | .completed rc out err =>
    if truthyTimeout timeout && elapsed then
      { success := false, exit_code := -1, stdout := "", stderr := "Command timed out" }
    else
      { success := rc == 0, exit_code := if rc == 0 then 0 else rc, stdout := out, stderr := err }

/-! ## Exception detectors

The repository carries two sibling detectors with the same primary regex
`check_exception.*v=([0-9a-fA-F]+)|.*v=([0-9a-fA-F]\x7b2\x7d)\s+e=([0-9a-fA-F]+)`
(compiled with `re.IGNORECASE`): `src/src/analysis/detector.py` and
`src/src/analysis/exception_detector.py`.  The scanners below implement
Python `re.search` for exactly these patterns: leftmost starting position
wins, the first alternative is preferred at equal positions, and `.*` is
greedy, so a greedy tail capture takes the last viable occurrence. -/

/-- Is `c` in the class `[0-9a-fA-Fx]` compiled with `re.IGNORECASE` (the
fold also admits `X`)? -/
def isHexOrX (c : Char) : Bool :=
  isHexDigitAny c || c.toLower = 'x'

/-- Implements `re.search(key + "(" + class + "+)", line)`: scan left to
right; at each position the key must match (case-insensitively when `ci`)
and be followed by at least one class character; the capture is the maximal
class run. -/
def searchKeyCapture (ci : Bool) (key : List Char) (cls : Char → Bool) :
    List Char → Option (List Char)
  | [] => none
  | c :: cs =>
    let here := if ci then isPrefixListCI key (c :: cs) else isPrefixList key (c :: cs)
    if here then
      let run := ((c :: cs).drop key.length).takeWhile cls
      if run ≠ [] then some run else searchKeyCapture ci key cls cs
    else
      searchKeyCapture ci key cls cs

/-- Implements `re.search(name + r"\s*=\s*([0-9a-fA-Fx]+)", line,
re.IGNORECASE)` (the `CS`/`SS` patterns of exception_detector.py): after
the name, optional whitespace, `=`, optional whitespace, then the maximal
class run (at least one character). -/
def searchKeyEqCapture (key : List Char) : List Char → Option (List Char)
  | [] => none
  | c :: cs =>
    if isPrefixListCI key (c :: cs) then
      let afterKey := (c :: cs).drop key.length
      let afterWs := afterKey.dropWhile isPySpace
      match afterWs with
      | '=' :: rest =>
        let run := (rest.dropWhile isPySpace).takeWhile isHexOrX
        if run ≠ [] then some run else searchKeyEqCapture key cs
      | _ => searchKeyEqCapture key cs
    else
      searchKeyEqCapture key cs

/-- A successful primary-regex match: which alternative matched and its
captures (`group(1)`, or `group(2)` and `group(3)`). -/
inductive ExcMatch where
  | alt1 (g1 : List Char)
  | alt2 (g2 g3 : List Char)
deriving DecidableEq, Repr

/-- The literal of the first alternative. -/
def checkExceptionLit : List Char :=
  "check_exception".data

/-- Tail of the first alternative at one position: `v=` (case-insensitive)
followed by at least one hex digit; the capture is the maximal digit run. -/
def vCaptureAt : List Char → Option (List Char)
  | v :: '=' :: rest =>
    if v.toLower = 'v' then
      let run := rest.takeWhile isHexDigitAny
      if run ≠ [] then some run else none
    else none
  | _ => none

/-- Greedy `.*v=([0-9a-fA-F]+)`: the capture at the last position where the
tail matches. -/
def lastVCapture (acc : Option (List Char)) : List Char → Option (List Char)
  | [] => acc
  | c :: cs =>
    lastVCapture (match vCaptureAt (c :: cs) with
                  | some r => some r
                  | none => acc) cs

/-- Tail of the second alternative at one position:
`v=([0-9a-fA-F]\x7b2\x7d)\s+e=([0-9a-fA-F]+)` case-insensitively. -/
def wCaptureAt : List Char → Option (List Char × List Char)
  | v :: '=' :: h1 :: h2 :: rest =>
    if v.toLower = 'v' && isHexDigitAny h1 && isHexDigitAny h2 then
      let ws := rest.takeWhile isPySpace
      if ws = [] then none
      else
        match rest.drop ws.length with
        | e :: '=' :: tail =>
          if e.toLower = 'e' then
            let run := tail.takeWhile isHexDigitAny
            if run ≠ [] then some ([h1, h2], run) else none
          else none
        | _ => none
    else none
  | _ => none

/-- Greedy `.*v=(..)\s+e=(..+)`: the captures at the last viable
position. -/
def lastWCapture (acc : Option (List Char × List Char)) :
    List Char → Option (List Char × List Char)
  | [] => acc
  | c :: cs =>
    lastWCapture (match wCaptureAt (c :: cs) with
                  | some r => some r
                  | none => acc) cs

/-- Scan for a later starting position of the first alternative (the second
alternative's `.*` already covered every position when it was tried at the
start, so only `check_exception` starts remain). -/
def ceScan : List Char → Option ExcMatch
  | [] => none
  | c :: cs =>
    if isPrefixListCI checkExceptionLit (c :: cs) then
      match lastVCapture none ((c :: cs).drop checkExceptionLit.length) with
      | some g => some (.alt1 g)
      | none => ceScan cs
    else ceScan cs

/-- Python `re.search` of the primary exception regex: at the leftmost
position the first alternative is tried (it can only start where the
literal `check_exception` starts), then the second (whose leading `.*`
makes position 0 cover all positions), then later `check_exception`
starts. -/
def exceptionSearch (s : List Char) : Option ExcMatch :=
  let first :=
    if isPrefixListCI checkExceptionLit s then
      match lastVCapture none (s.drop checkExceptionLit.length) with
      | some g => some (ExcMatch.alt1 g)
      | none => none
    else none
  match first with
  | some m => some m
  | none =>
    match lastWCapture none s with
    | some (g2, g3) => some (.alt2 g2 g3)
    | none =>
      match s with
      | [] => none
      | _ :: cs => ceScan cs

/-- A detected CPU exception (`CpuException` dataclass; detector.py and
exception_detector.py declare structurally matching versions, the latter
with an extra `rflags` field, unset by both).  `datetime.now()` timestamps
are modelled as 0. -/
structure CpuException where
  timestamp : Nat
  vector : Nat
  name : String
  code : String
  error_code : Option Nat := none
  rip : Option String := none
  cr2 : Option String := none
  rsp : Option String := none
  cs : Option String := none
  ss : Option String := none
  rflags : Option String := none
  raw_line : String := ""
deriving DecidableEq, Repr

/-- The `EXCEPTION_MAP` vector table of detector.py (lines 44-64), in
insertion order. -/
def EXCEPTION_MAP : List (Nat × String × String) :=
  [(0x00, "Divide Error", "#DE"),
   (0x01, "Debug", "#DB"),
   (0x02, "NMI", "NMI"),
   (0x03, "Breakpoint", "#BP"),
   (0x04, "Overflow", "#OF"),
   (0x05, "Bound Range", "#BR"),
   (0x06, "Invalid Opcode", "#UD"),
   (0x07, "Device Not Available", "#NM"),
   (0x08, "Double Fault", "#DF"),
   (0x0A, "Invalid TSS", "#TS"),
   (0x0B, "Segment Not Present", "#NP"),
   (0x0C, "Stack Fault", "#SS"),
   (0x0D, "General Protection", "#GP"),
   (0x0E, "Page Fault", "#PF"),
   (0x10, "x87 FPU Error", "#MF"),
   (0x11, "Alignment Check", "#AC"),
   (0x12, "Machine Check", "#MC"),
   (0x13, "SIMD Exception", "#XM"),
   (0x14, "Virtualization", "#VE")]

/-- The `EXCEPTION_MAP` vector table of exception_detector.py (lines
50-70): identical to the detector.py table except the 0x13 name
(`SIMD FP Exception`). -/
def EXCEPTION_MAP_ED : List (Nat × String × String) :=
  EXCEPTION_MAP.map fun e => if e.1 = 0x13 then (0x13, "SIMD FP Exception", "#XM") else e

/-- `EXCEPTION_MAP.get(vector, (f"Exception \x7bvector\x7d",
f"#0x\x7bvector:02X\x7d"))` for a given vector table. -/
def exceptionNameCodeIn (table : List (Nat × String × String)) (vector : Nat) :
    String × String :=
  match table.lookup vector with
  | some nc => nc
  | none => (("Exception " : String) ++ toString vector, ("#0x" : String) ++ natHex2Upper vector)

/-- The fallback scan shared by both `detect` methods: the first vector of
the table (in insertion order) whose lowercase marker `v=\x7bvec:02x\x7d`
occurs in `line.lower()`. -/
def fallbackVectorIn (table : List (Nat × String × String)) (line : String) : Option Nat :=
  (table.find? fun v =>
    containsSub (("v=" : String) ++ natHex2 v.1).data (line.data.map Char.toLower)).map Prod.fst

/-- Mutable state of `ExceptionDetector` in detector.py (lines 76-78): the
last seen `RIP` capture and the `_last_regs` dict, which only ever holds
the keys `CR2` and `RSP`. -/
structure Detector where
  last_rip : Option String := none
  cr2 : Option String := none
  rsp : Option String := none
deriving DecidableEq, Repr

/-- Transcribes `ExceptionDetector.process_line` of detector.py (lines
80-94): update `RIP`, `CR2` and `RSP` from `re.search(reg + "=([0-9a-fA-Fx]+)",
line, re.IGNORECASE)` captures when present. -/
def Detector.process_line (st : Detector) (line : String) : Detector :=
  let rip := searchKeyCapture true "RIP=".data isHexOrX line.data
  let cr2 := searchKeyCapture true "CR2=".data isHexOrX line.data
  let rsp := searchKeyCapture true "RSP=".data isHexOrX line.data
  { last_rip := match rip with | some r => some ⟨r⟩ | none => st.last_rip
    cr2 := match cr2 with | some r => some ⟨r⟩ | none => st.cr2
    rsp := match rsp with | some r => some ⟨r⟩ | none => st.rsp }

/-- Transcribes `ExceptionDetector._create_exception` of detector.py (lines
123-152): the error code comes only from the explicitly passed capture
(`match.group(3)`), and the register context from the maintained state. -/
def Detector.create_exception (st : Detector) (vector : Nat) (line : String)
    (error_code_str : Option (List Char) := none) : CpuException :=
  let nc := exceptionNameCodeIn EXCEPTION_MAP vector
  { timestamp := 0
    vector := vector
    name := nc.1
    code := nc.2
    error_code := error_code_str.map hexVal
    rip := st.last_rip
    cr2 := st.cr2
    rsp := st.rsp
    raw_line := line }

/-- Transcribes `ExceptionDetector.detect` of detector.py (lines 96-121):
ingest the line, try the primary regex (`group(3)` is the only error-code
source), and fall back to the `v=..` marker scan.  The `int(vector_str, 16)`
parse cannot fail on the all-hex captures, so the `ValueError` branch that
would fall through to the fallback is unreachable. -/
def Detector.detect (st : Detector) (line : String) : Detector × Option CpuException :=
  let st' := st.process_line line
  let primary :=
    match exceptionSearch line.data with
    | some (.alt1 g1) => some (st'.create_exception (hexVal g1) line none)
    | some (.alt2 g2 g3) => some (st'.create_exception (hexVal g2) line (some g3))
    | none => none
  match primary with
  | some exc => (st', some exc)
  | none =>
    match fallbackVectorIn EXCEPTION_MAP line with
    | some vec => (st', some (st'.create_exception vec line none))
    | none => (st', none)

/-- Mutable state of `ExceptionDetector` in exception_detector.py (lines
85-88): last `RIP`, the `_last_registers` dict (keys `CR2`, `RSP`, `CS`,
`SS`) and the ten most recent `Servicing hardware INT=` lines. -/
structure ExceptionDetector where
  last_rip : Option String := none
  cr2 : Option String := none
  rsp : Option String := none
  cs : Option String := none
  ss : Option String := none
  recent_interrupts : List String := []
deriving DecidableEq, Repr

/-- Transcribes `ExceptionDetector.process_line` of exception_detector.py
(lines 90-112): update `RIP`/`CR2`/`RSP` (tight `=`), `CS`/`SS`
(whitespace-tolerant `\s*=\s*`), and the bounded interrupt list. -/
def ExceptionDetector.process_line (st : ExceptionDetector) (line : String) :
    ExceptionDetector :=
  let rip := searchKeyCapture true "RIP=".data isHexOrX line.data
  let cr2 := searchKeyCapture true "CR2=".data isHexOrX line.data
  let rsp := searchKeyCapture true "RSP=".data isHexOrX line.data
  let cs := searchKeyEqCapture "CS".data line.data
  let ss := searchKeyEqCapture "SS".data line.data
  let ints :=
    if containsSub "Servicing hardware INT=".data line.data then
      let l := st.recent_interrupts ++ [line]
      if 10 < l.length then l.drop 1 else l
    else st.recent_interrupts
  { last_rip := match rip with | some r => some ⟨r⟩ | none => st.last_rip
    cr2 := match cr2 with | some r => some ⟨r⟩ | none => st.cr2
    rsp := match rsp with | some r => some ⟨r⟩ | none => st.rsp
    cs := match cs with | some r => some ⟨r⟩ | none => st.cs
    ss := match ss with | some r => some ⟨r⟩ | none => st.ss
    recent_interrupts := ints }

/-- The error-code search of `_create_exception` in exception_detector.py
(line 152): `re.search(r"e=([0-9a-fA-F]+)", line)`, case-sensitive, parsed
as hexadecimal (the parse cannot fail on the all-hex capture). -/
def eCode (line : String) : Option Nat :=
  (searchKeyCapture false "e=".data isHexDigitAny line.data).map hexVal

/-- Transcribes `ExceptionDetector._create_exception` of
exception_detector.py (lines 146-171): unlike the detector.py sibling, the
error code is re-searched on the raw triggering line itself. -/
def ExceptionDetector.create_exception (st : ExceptionDetector) (vector : Nat)
    (line : String) : CpuException :=
  let nc := exceptionNameCodeIn EXCEPTION_MAP_ED vector
  { timestamp := 0
    vector := vector
    name := nc.1
    code := nc.2
    error_code := eCode line
    rip := st.last_rip
    cr2 := st.cr2
    rsp := st.rsp
    cs := st.cs
    ss := st.ss
    raw_line := line }

/-- Transcribes `ExceptionDetector.detect` of exception_detector.py (lines
114-144): ingest the line, run the primary regex, fall back to the `v=..`
marker scan only when the primary regex found nothing. -/
def ExceptionDetector.detect (st : ExceptionDetector) (line : String) :
    ExceptionDetector × Option CpuException :=
  let st' := st.process_line line
  match exceptionSearch line.data with
  | some (.alt1 g1) => (st', some (st'.create_exception (hexVal g1) line))
  | some (.alt2 g2 _) => (st', some (st'.create_exception (hexVal g2) line))
  | none =>
    match fallbackVectorIn EXCEPTION_MAP_ED line with
    | some vec => (st', some (st'.create_exception vec line))
    | none => (st', none)

/-! ## QEMU Monitor (src/src/runner/monitor.py)

`QemuMonitor._detect_exception` checks one captured entry against the
five-entry `EXCEPTIONS` marker table.  The capture timeline that
`self.capture.get_context(100)` reads and the tracked `self._last_rip` are
passed in explicitly. -/

/-- Information about a detected crash (`CrashInfo`). -/
structure CrashInfo where
  timestamp : Nat
  exception_type : String
  exception_code : String
  context_lines : List LogEntry
  rip : Option String := none
  cr2 : Option String := none
  rsp : Option String := none
deriving DecidableEq, Repr

/-- The `QemuMonitor.EXCEPTIONS` marker table (monitor.py, lines 59-65), in
insertion order. -/
def EXCEPTIONS : List (String × String × String) :=
  [("v=00", "Divide Error", "#DE"),
   ("v=06", "Invalid Opcode", "#UD"),
   ("v=08", "Double Fault", "#DF"),
   ("v=0d", "General Protection", "#GP"),
   ("v=0e", "Page Fault", "#PF")]

/-- The `CrashInfo` that `_detect_exception` builds once a marker row is
taken: CR2 is extracted only from lines carrying `v=0e`, RSP always, both
with case-sensitive `re.search`; RIP comes from the monitor's tracked
state and the context from `self.capture.get_context(100)`. -/
def monitorCrashInfo (last_rip : Option String) (timeline : List LogEntry)
    (entry : LogEntry) (name code : String) : CrashInfo :=
  let cr2 :=
    if containsSub "v=0e".data entry.line.data then
      (searchKeyCapture false "CR2=".data isHexOrX entry.line.data).map (⟨·⟩)
    else none
  let rsp := (searchKeyCapture false "RSP=".data isHexOrX entry.line.data).map (⟨·⟩)
  { timestamp := entry.timestamp
    exception_type := name
    exception_code := code
    context_lines := lastSlice timeline 100
    rip := last_rip
    cr2 := cr2
    rsp := rsp }

/-- The iteration over `EXCEPTIONS.items()` inside `_detect_exception`: the
first row whose marker occurs in the line — or, on any row, a line
containing `check_exception` — produces the crash record. -/
def detectExceptionRows (last_rip : Option String) (timeline : List LogEntry)
    (entry : LogEntry) : List (String × String × String) → Option CrashInfo
  | [] => none
  | (pat, name, code) :: rest =>
    if containsSub pat.data entry.line.data ||
        containsSub "check_exception".data entry.line.data then
      some (monitorCrashInfo last_rip timeline entry name code)
    else
      detectExceptionRows last_rip timeline entry rest

/-- Transcribes `QemuMonitor._detect_exception` (monitor.py, lines
116-145). -/
def QemuMonitor.detect_exception (last_rip : Option String) (timeline : List LogEntry)
    (entry : LogEntry) : Option CrashInfo :=
  detectExceptionRows last_rip timeline entry EXCEPTIONS

/-! ## Diagnostic Engine (src/src/analysis/diagnostics.py)

`DiagnosticEngine.analyze_crash` is async and consults the binary inspector
(subprocess tools) and the filesystem; the embedding passes those effects
in as oracles: whether the kernel binary exists, and the `find_symbol_at`
and `disassemble_at` results per address.  `find_matching_patterns` is the
registry search of patterns.py (diagnostics.py imports it under that
name).  Strings are transcribed exactly (the source's messages are in
Portuguese). -/

/-- Address-to-symbol mapping result (`Symbol` of binary_inspector.py; the
engine reads `name`, `file` and `line`; named `KernelSymbol` here because
Mathlib already declares `Symbol`). -/
structure KernelSymbol where
  name : String
  address : Nat
  size : Option Nat := none
  file : Option String := none
  line : Option Nat := none
deriving DecidableEq, Repr

/-- One disassembled window (`Disassembly` of binary_inspector.py):
`instructions` is the ordered (address, raw bytes, mnemonic text) list. -/
structure Disassembly where
  address : Nat
  instructions : List (Nat × String × String) := []
  symbol : Option String := none
deriving DecidableEq, Repr

/-- The diagnosis record (`Diagnosis`, diagnostics.py lines 23-41; the
free-form `extra_info` dict, unused by the engine, is omitted). -/
structure Diagnosis where
  timestamp : Nat
  exception : CpuException
  symbol : Option KernelSymbol := none
  disassembly : Option Disassembly := none
  matching_patterns : List Pattern := []
  probable_cause : String := ""
  suggestions : List String := []
  severity : Severity := .critical
  context_lines : List LogEntry := []
deriving DecidableEq, Repr

/-- The `code_to_vector` table of `analyze_crash` (diagnostics.py, lines
84-87). -/
def code_to_vector : List (String × Nat) :=
  [("#DE", 0x00), ("#UD", 0x06), ("#DF", 0x08), ("#GP", 0x0D), ("#PF", 0x0E)]

/-- Python `exc.cr2.replace("0x", "")` (every occurrence is removed). -/
def strip0x (s : String) : String :=
  ⟨replaceSubList '0' ['x'] [] s.data⟩

/-- Python `rip.replace("RIP=", "").replace("0x", "")`. -/
def stripRipPrefixes (s : String) : String :=
  strip0x ⟨replaceSubList 'R' ['I', 'P', '='] [] s.data⟩

/-- Transcribes `DiagnosticEngine._determine_cause` (diagnostics.py, lines
132-156): the first matched pattern's diagnosis (with a location line when
a symbol resolved), else a vector-keyed fallback table. -/
def determine_cause (d : Diagnosis) : String :=
  match d.matching_patterns with
  | pattern :: _ =>
    let cause := pattern.diagnosis
    match d.symbol with
    | some s => cause ++ "\n\nLocalização: " ++ s.name
    | none => cause
  | [] =>
    let exc := d.exception
    if exc.vector = 0x00 then "Divisão por zero"
    else if exc.vector = 0x06 then "Instrução inválida (possivelmente SSE em código kernel)"
    else if exc.vector = 0x08 then "Double fault - provavelmente stack overflow ou IDT corrompida"
    else if exc.vector = 0x0D then "Violação de proteção - segmento inválido ou instrução privilegiada"
    else if exc.vector = 0x0E then
      "Page fault no endereço " ++
        (match exc.cr2 with
         | some c => if c = "" then "desconhecido" else c
         | none => "desconhecido")
    else "Exceção desconhecida (vector " ++ toString exc.vector ++ ")"

/-- The suggestion list of `_generate_suggestions` (diagnostics.py, lines
158-190) before its final emptiness fallback: matched patterns' solutions,
the resolved symbol's function hint, the page-fault CR2 hints and the
invalid-opcode SSE hint, in source order. -/
def generate_suggestions_core (d : Diagnosis) : List String :=
  let exc := d.exception
  let fromPatterns := d.matching_patterns.map Pattern.solution
  let fromSymbol :=
    match d.symbol with
    | some s => ["Verificar código da função \x27" ++ s.name ++ "\x27"]
    | none => []
  let fromCr2 :=
    if exc.vector = 0x0E then
      match exc.cr2 with
      | some c =>
        if c = "" then []
        else
          match parseHexPlain? (strip0x c).data with
          | some cr2_addr =>
            if cr2_addr < 0x1000 then ["NULL pointer dereference detectado"]
            else if cr2_addr &&& 0xFFF = 0 then
              ["Acesso a página não mapeada (possível stack overflow)"]
            else []
          | none => []
      | none => []
    else []
  let fromVector06 :=
    if exc.vector = 0x06 then
      ["Executar \x27anvil inspect kernel --check-sse\x27 para verificar instruções SSE"]
    else []
  fromPatterns ++ fromSymbol ++ fromCr2 ++ fromVector06

/-- Transcribes `DiagnosticEngine._generate_suggestions` (diagnostics.py,
lines 158-190): the collected suggestions, or the analyse-the-log fallback
when none were produced. -/
def generate_suggestions (d : Diagnosis) : List String :=
  let s := generate_suggestions_core d
  if s.isEmpty then ["Analisar contexto do log para mais informações"] else s

/-- Transcribes `DiagnosticEngine.analyze_crash` (diagnostics.py, lines
63-130).  `kernel_exists` models `kernel_path.exists()`; `find_symbol_at`
and `disassemble_at` model the awaited inspector calls at the parsed RIP
address. -/
def analyze_crash (crash : CrashInfo) (kernel_exists : Bool)
    (find_symbol_at : Nat → Option KernelSymbol) (disassemble_at : Nat → Option Disassembly) :
    Diagnosis :=
  let exception : CpuException :=
    { timestamp := crash.timestamp
      vector := ((code_to_vector.lookup crash.exception_code).getD 0)
      name := crash.exception_type
      code := crash.exception_code
      rip := crash.rip
      cr2 := crash.cr2
      raw_line := "" }
  let context := crash.context_lines
  let matching := find_matching_patterns (String.intercalate "\n" (context.map LogEntry.line))
  let symDis : Option KernelSymbol × Option Disassembly :=
    match exception.rip with
    | some rip =>
      if rip = "" then (none, none)
      else
        match parseHexPlain? (stripRipPrefixes rip).data with
        | some rip_addr =>
          if kernel_exists then (find_symbol_at rip_addr, disassemble_at rip_addr)
          else (none, none)
        | none => (none, none)
    | none => (none, none)
  let d0 : Diagnosis :=
    { timestamp := 0
      exception := exception
      symbol := symDis.1
      disassembly := symDis.2
      matching_patterns := matching
      context_lines := context }
  { d0 with
    probable_cause := determine_cause d0
    suggestions := generate_suggestions d0
    severity :=
      match matching with
      | [] => d0.severity
      | p :: ps => sevMaxFrom p.severity (ps.map Pattern.severity) }

/-! ## Artifact validation (src/src/build/artifacts.py)

`ArtifactValidator.validate_kernel` reads the file at `path`; the file
system is modelled by passing the file's bytes (`none` when the path does
not exist).  `_compute_checksum` is `hashlib.sha256` over the full
contents, embedded below as the FIPS 180-4 SHA-256 algorithm over byte
lists.  A file that passes the magic check but ends before offset 32 makes
`struct.unpack("<Q", ...)` raise `struct.error`, which propagates out of
`validate_kernel`; the model returns `none` for that raising path. -/

/-- Word arithmetic modulus of SHA-256. -/
def M32 : Nat := 4294967296

/-- 32-bit right rotation. -/
def rotr32 (n x : Nat) : Nat :=
  ((x >>> n) ||| (x <<< (32 - n))) % M32

/-- SHA-256 small sigma 0. -/
def ssig0 (x : Nat) : Nat := rotr32 7 x ^^^ rotr32 18 x ^^^ (x >>> 3)

/-- SHA-256 small sigma 1. -/
def ssig1 (x : Nat) : Nat := rotr32 17 x ^^^ rotr32 19 x ^^^ (x >>> 10)

/-- SHA-256 big sigma 0. -/
def bsig0 (x : Nat) : Nat := rotr32 2 x ^^^ rotr32 13 x ^^^ rotr32 22 x

/-- SHA-256 big sigma 1. -/
def bsig1 (x : Nat) : Nat := rotr32 6 x ^^^ rotr32 11 x ^^^ rotr32 25 x

/-- SHA-256 choose. -/
def shaCh (x y z : Nat) : Nat := (x &&& y) ^^^ ((x ^^^ (M32 - 1)) &&& z)

/-- SHA-256 majority. -/
def shaMaj (x y z : Nat) : Nat := (x &&& y) ^^^ (x &&& z) ^^^ (y &&& z)

/-- The SHA-256 round constants. -/
def sha256K : List Nat :=
  [1116352408, 1899447441, 3049323471, 3921009573, 961987163,
   1508970993, 2453635748, 2870763221, 3624381080, 310598401,
   607225278, 1426881987, 1925078388, 2162078206, 2614888103,
   3248222580, 3835390401, 4022224774, 264347078, 604807628,
   770255983, 1249150122, 1555081692, 1996064986, 2554220882,
   2821834349, 2952996808, 3210313671, 3336571891, 3584528711,
   113926993, 338241895, 666307205, 773529912, 1294757372,
   1396182291, 1695183700, 1986661051, 2177026350, 2456956037,
   2730485921, 2820302411, 3259730800, 3345764771, 3516065817,
   3600352804, 4094571909, 275423344, 430227734, 506948616,
   659060556, 883997877, 958139571, 1322822218, 1537002063,
   1747873779, 1955562222, 2024104815, 2227730452, 2361852424,
   2428436474, 2756734187, 3204031479, 3329325298]

/-- The SHA-256 initial hash value. -/
def sha256H0 : List Nat :=
  [1779033703, 3144134277, 1013904242, 2773480762,
   1359893119, 2600822924, 528734635, 1541459225]

/-- Big-endian 8-byte rendering of a 64-bit value. -/
def toBE8 (n : Nat) : List Nat :=
  [n >>> 56 % 256, n >>> 48 % 256, n >>> 40 % 256, n >>> 32 % 256,
   n >>> 24 % 256, n >>> 16 % 256, n >>> 8 % 256, n % 256]

/-- SHA-256 padding: `0x80`, zeros to 56 mod 64, and the bit length. -/
def sha256Pad (msg : List Nat) : List Nat :=
  let L := msg.length
  let k := (120 - (L + 1) % 64) % 64
  msg ++ 0x80 :: List.replicate k 0 ++ toBE8 (L * 8 % (2 ^ 64))

/-- Big-endian 32-bit words of a byte list whose length is a multiple of
four. -/
def bytesToWords : List Nat → List Nat
  | b0 :: b1 :: b2 :: b3 :: rest =>
    (b0 * 16777216 + b1 * 65536 + b2 * 256 + b3) :: bytesToWords rest
  | _ => []

/-- Sixteen-word blocks of a word list whose length is a multiple of
sixteen. -/
def wordBlocks : List Nat → List (List Nat)
  | w0 :: w1 :: w2 :: w3 :: w4 :: w5 :: w6 :: w7 ::
    w8 :: w9 :: w10 :: w11 :: w12 :: w13 :: w14 :: w15 :: rest =>
    [w0, w1, w2, w3, w4, w5, w6, w7, w8, w9, w10, w11, w12, w13, w14, w15] ::
      wordBlocks rest
  | _ => []

/-- One new schedule word from the reversed schedule built so far. -/
def schedNext (rev : List Nat) : Nat :=
  (ssig1 (rev.getD 1 0) + rev.getD 6 0 + ssig0 (rev.getD 14 0) + rev.getD 15 0) % M32

/-- Extend the reversed schedule by `n` words. -/
def buildSched (rev : List Nat) : Nat → List Nat
  | 0 => rev
  | n + 1 => buildSched (schedNext rev :: rev) n

/-- The 64-word message schedule of one block. -/
def sha256Schedule (block : List Nat) : List Nat :=
  (buildSched block.reverse 48).reverse

/-- One compression round: the working state is the eight-word list
`[a, b, c, d, e, f, g, h]`. -/
def compressStep (s : List Nat) (wk : Nat × Nat) : List Nat :=
  let a := s.getD 0 0
  let b := s.getD 1 0
  let c := s.getD 2 0
  let d := s.getD 3 0
  let e := s.getD 4 0
  let f := s.getD 5 0
  let g := s.getD 6 0
  let h := s.getD 7 0
  let t1 := (h + bsig1 e + shaCh e f g + wk.2 + wk.1) % M32
  let t2 := (bsig0 a + shaMaj a b c) % M32
  [(t1 + t2) % M32, a, b, c, (d + t1) % M32, e, f, g]

/-- Compress one sixteen-word block into the running hash. -/
def compressBlock (H : List Nat) (block : List Nat) : List Nat :=
  let w := sha256Schedule block
  let s := (w.zip sha256K).foldl compressStep H
  (H.zip s).map fun p => (p.1 + p.2) % M32

/-- SHA-256 digest of a byte list, as 32 bytes. -/
def sha256Bytes (msg : List Nat) : List Nat :=
  let H := (wordBlocks (bytesToWords (sha256Pad msg))).foldl compressBlock sha256H0
  H.foldr (fun w acc => (w >>> 24 % 256) :: (w >>> 16 % 256) :: (w >>> 8 % 256) :: (w % 256) :: acc) []

/-- Transcribes `ArtifactValidator._compute_checksum` (artifacts.py, lines
220-226): the lowercase hexadecimal SHA-256 digest of the file bytes. -/
def compute_checksum (msg : List Nat) : String :=
  bytesHex (sha256Bytes msg)

/-- Kinds of build artifact (`ArtifactType`). -/
inductive ArtifactType where
  | kernel
  | bootloader
  | service
deriving DecidableEq, Repr

/-- Result of artifact validation (`ValidationResult`). -/
structure ValidationResult where
  valid : Bool
  artifact_type : ArtifactType
  path : String
  size : Nat := 0
  checksum : String := ""
  issues : List String := []
deriving DecidableEq, Repr

/-- The `ELF_MAGIC` constant `b"\x7fELF"`. -/
def ELF_MAGIC : List Nat := [0x7F, 0x45, 0x4C, 0x46]

/-- Little-endian unsigned value of a byte list (`struct.unpack("<Q", ...)`
for eight bytes). -/
def leVal (bs : List Nat) : Nat :=
  bs.foldr (fun b acc => b + 256 * acc) 0

/-- Transcribes `ArtifactValidator.validate_kernel` (artifacts.py, lines
50-115) over the file contents at `path` (`none` when the file does not
exist).  Returns `none` on the path where `struct.unpack` raises (ELF
magic present but fewer than 32 bytes of file). -/
def validate_kernel (path : String) (file : Option (List Nat)) :
    Option ValidationResult :=
  match file with
  | none =>
    some { valid := false, artifact_type := .kernel, path := path,
           issues := ["File not found: " ++ path] }
  | some b =>
    if b.length = 0 then
      some { valid := false, artifact_type := .kernel, path := path,
             issues := ["File is empty"] }
    else
      let magic := b.take 4
      if magic ≠ ELF_MAGIC then
        let issues := ["Not a valid ELF file (magic: " ++ bytesHex magic ++ ")"]
        some { valid := issues.isEmpty, artifact_type := .kernel, path := path,
               size := b.length, checksum := compute_checksum b, issues := issues }
      else
        let classIssues :=
          if (b.drop 4).take 1 ≠ [2] then ["Not ELF64 (expected for x86_64)"] else []
        let entry_bytes := (b.drop 24).take 8
        if entry_bytes.length < 8 then none
        else
          let entry_point := leVal entry_bytes
          let entryIssues :=
            if entry_point < 0xFFFFFFFF80000000 then
              ["Entry point 0x" ++ natHex entry_point ++ " not in high-half (expected >= 0xFFFFFFFF80000000)"]
            else []
          let issues := classIssues ++ entryIssues
          some { valid := issues.isEmpty, artifact_type := .kernel, path := path,
                 size := b.length, checksum := compute_checksum b, issues := issues }

/-- A well-formed 32-byte kernel image: ELF magic, `EI_CLASS = 2`, and a
little-endian entry point of `0xFFFFFFFF80000000` at offset 24. -/
def goodKernelBytes : List Nat :=
  [0x7F, 0x45, 0x4C, 0x46, 2] ++ List.replicate 19 0 ++
    [0x00, 0x00, 0x00, 0x80, 0xFF, 0xFF, 0xFF, 0xFF]

/-! ## Theorems

One theorem per claim of the specification review, with supporting lemmas;
counterexamples and witnesses are closed statements at concrete inputs. -/

/-- Applying `toLower` then `toUpper` is the identity on the drive
letters. -/
theorem driveLetters_lower_upper :
    ∀ c ∈ driveLetters, c.toLower.toUpper = c := by
  decide

/-- On a character other than `/`, mapping backslash to slash and back is
the identity. -/
theorem slash_backslash_inverse (c : Char) (h : c ≠ '/') :
    slashToBackslash (backslashToSlash c) = c := by
  by_cases hb : c = '\\'
  · subst hb; rfl
  · simp [backslashToSlash, slashToBackslash, hb, h]

/-- C3.  The native-to-WSL path conversion and its inverse are total string
functions, `from_wsl (to_wsl p) = p` for every absolute native path with a
drive-letter prefix (uppercase drive letter, backslash separators — the
canonical rendering `Path.resolve()` hands the rule), and the two concrete
conversions of the specification hold. -/
theorem wsl_path_roundtrip :
    (∀ (c0 : Char) (rest : List Char), c0 ∈ driveLetters → (∀ c ∈ rest, c ≠ '/') →
      from_wsl (to_wsl ⟨c0 :: ':' :: rest⟩) = ⟨c0 :: ':' :: rest⟩)
    ∧ to_wsl "D:\\Github\\RedstoneOS\\dist\\qemu" = "/mnt/d/Github/RedstoneOS/dist/qemu"
    ∧ from_wsl "/mnt/c/Users" = "C:\\Users" := by
  refine ⟨?_, by decide, by decide⟩
  intro c0 rest h0 hrest
  show from_wsl ⟨'/' :: 'm' :: 'n' :: 't' :: '/' :: c0.toLower :: rest.map backslashToSlash⟩ = _
  show (⟨c0.toLower.toUpper :: ':' :: (rest.map backslashToSlash).map slashToBackslash⟩ : String) = _
  rw [driveLetters_lower_upper c0 h0, List.map_map]
  have hmap : List.map (slashToBackslash ∘ backslashToSlash) rest = rest := by
    refine (List.map_congr_left ?_).trans (List.map_id rest)
    intro c hc
    exact slash_backslash_inverse c (hrest c hc)
  rw [hmap]

/-- C1 counterexample.  The registry has no entry named `heap_corruption`,
`iret_corruption` or `cr0_flip`, so the claimed seed coverage fails on the
code. -/
theorem known_patterns_missing_seed_entries :
    KNOWN_PATTERNS.lookup "heap_corruption" = none ∧
    KNOWN_PATTERNS.lookup "iret_corruption" = none ∧
    KNOWN_PATTERNS.lookup "cr0_flip" = none := by
  decide

/-- C1 (amended).  `KNOWN_PATTERNS` is the constant association list with
exactly the eleven names below in declaration order, each entry's `name`
field agreeing with its key, with the seed-table trigger strings and
severities for those names — and it has no `heap_corruption`,
`iret_corruption` or `cr0_flip` entry. -/
theorem known_patterns_registry_contents :
    KNOWN_PATTERNS.map Prod.fst =
      ["page_fault", "general_protection", "double_fault", "invalid_opcode",
       "divide_error", "sse_in_kernel", "stack_overflow_guard", "null_pointer",
       "rsp_null", "timer_storm", "unimplemented_msr"]
    ∧ (KNOWN_PATTERNS.all fun kv => kv.2.name == kv.1) = true
    ∧ (KNOWN_PATTERNS.lookup "page_fault").map (fun p => (p.trigger, p.severity)) =
        some ("v=0e|check_exception.*0xe", .critical)
    ∧ (KNOWN_PATTERNS.lookup "general_protection").map (fun p => (p.trigger, p.severity)) =
        some ("v=0d|check_exception.*0xd", .critical)
    ∧ (KNOWN_PATTERNS.lookup "double_fault").map (fun p => (p.trigger, p.severity)) =
        some ("v=08|check_exception.*0x8", .critical)
    ∧ (KNOWN_PATTERNS.lookup "invalid_opcode").map (fun p => (p.trigger, p.severity)) =
        some ("v=06|check_exception.*0x6", .critical)
    ∧ (KNOWN_PATTERNS.lookup "divide_error").map (fun p => (p.trigger, p.severity)) =
        some ("v=00|check_exception.*0x0", .critical)
    ∧ (KNOWN_PATTERNS.lookup "sse_in_kernel").map (fun p => (p.trigger, p.severity)) =
        some ("v=06.*RIP=ffffffff|#UD.*kernel", .critical)
    ∧ (KNOWN_PATTERNS.lookup "stack_overflow_guard").map (fun p => (p.trigger, p.severity)) =
        some ("v=0e.*guard|CR2=.*0\x7b6,\x7d", .critical)
    ∧ (KNOWN_PATTERNS.lookup "null_pointer").map (fun p => (p.trigger, p.severity)) =
        some ("v=0e.*CR2=0\x7b8,16\x7d|CR2=0x0[^0-9a-fA-F]", .critical)
    ∧ (KNOWN_PATTERNS.lookup "rsp_null").map (fun p => (p.trigger, p.severity)) =
        some ("RSP=0\x7b16\x7d|RSP is NULL", .critical)
    ∧ (KNOWN_PATTERNS.lookup "timer_storm").map (fun p => (p.trigger, p.severity)) =
        some ("(INT=0x20.*)\x7b10,\x7d|timer.*overflow", .warning)
    ∧ (KNOWN_PATTERNS.lookup "unimplemented_msr").map (fun p => (p.trigger, p.severity)) =
        some ("unimplemented.*msr|ignored.*msr", .info)
    ∧ KNOWN_PATTERNS.lookup "heap_corruption" = none
    ∧ KNOWN_PATTERNS.lookup "iret_corruption" = none
    ∧ KNOWN_PATTERNS.lookup "cr0_flip" = none := by
  decide

/-- C7.  The subprocess gateway's `run` is a total function of the spawn
outcome: a missing launcher yields `success = false`, `exit_code = -1` and
an explanatory stderr; a completed child yields `success` exactly for exit
code 0 with the child's exit code preserved; an elapsed truthy timeout
yields `exit_code = -1` and a stderr containing `timed out`; and `success`
implies exit code 0. -/
theorem wsl_run_failure_modes :
    (∀ t e, WslExecutor.run .notFound t e =
      { success := false, exit_code := -1, stdout := "", stderr := "WSL not available" })
    ∧ (∀ rc out err t e, (truthyTimeout t && e) = false → rc ≠ 0 →
        (WslExecutor.run (.completed rc out err) t e).success = false ∧
        (WslExecutor.run (.completed rc out err) t e).exit_code = rc)
    ∧ (∀ rc out err t e, truthyTimeout t = true → e = true →
        (WslExecutor.run (.completed rc out err) t e).success = false ∧
        (WslExecutor.run (.completed rc out err) t e).exit_code = -1 ∧
        containsSub "timed out".data
          (WslExecutor.run (.completed rc out err) t e).stderr.data = true)
    ∧ (∀ o t e, (WslExecutor.run o t e).success = true →
        (WslExecutor.run o t e).exit_code = 0)
    ∧ WslExecutor.run (.completed 2 "out" "err") none false =
        { success := false, exit_code := 2, stdout := "out", stderr := "err" } := by
  refine ⟨fun t e => rfl, ?_, ?_, ?_, by decide⟩
  · intro rc out err t e hte hrc
    simp only [WslExecutor.run, hte, Bool.false_eq_true, if_false]
    constructor
    · simp [hrc]
    · simp [hrc]
  · intro rc out err t e ht he
    have hrun : WslExecutor.run (.completed rc out err) t e =
        { success := false, exit_code := -1, stdout := "", stderr := "Command timed out" } := by
      simp [WslExecutor.run, ht, he]
    rw [hrun]
    exact ⟨rfl, rfl, by decide⟩
  · intro o t e hs
    cases o with
    | notFound => simp [WslExecutor.run] at hs
    | completed rc out err =>
      by_cases hte : (truthyTimeout t && e) = true
      · simp [WslExecutor.run, hte] at hs
      · simp only [Bool.not_eq_true] at hte
        simp only [WslExecutor.run, hte, Bool.false_eq_true, if_false] at hs ⊢
        simp only [beq_iff_eq] at hs
        simp [hs]

/-- Appending once to a bounded deque keeps it within its bound. -/
theorem dequeAppend_length_le (cap : Nat) (buf : List α) (x : α)
    (h : buf.length ≤ cap) : (dequeAppend cap buf x).length ≤ cap := by
  simp only [dequeAppend]
  split <;> rename_i hc <;>
    simp only [List.length_drop, List.length_append, List.length_cons,
      List.length_nil] at hc ⊢ <;>
    omega

/-- Any insertion sequence into an initially empty bounded deque stays
within the bound. -/
theorem dequeAppend_foldl_le (cap : Nat) (xs : List α) (buf : List α)
    (h : buf.length ≤ cap) : (xs.foldl (dequeAppend cap) buf).length ≤ cap := by
  induction xs generalizing buf with
  | nil => exact h
  | cons x xs ih => exact ih _ (dequeAppend_length_le cap buf x h)

/-- C8 counterexample.  The per-source ring buffers are created with
`deque(maxlen=1000)`, not 5000; and the Python tail slice `[-0:]` returns
the whole buffer, so `recent(0)` on a two-entry buffer yields 2 entries,
not `min(0, 2) = 0`. -/
theorem ring_buffer_capacity_counterexample :
    serial_buffer_maxlen = 1000 ∧ serial_buffer_maxlen ≠ 5000 ∧
    (get_serial_context
      { serial_buffer := [⟨0, .serial, "a", 1⟩, ⟨0, .serial, "b", 2⟩] } 0).length = 2 ∧
    (2 : Nat) ≠ min 0 2 := by
  decide

/-- C8 (amended).  Each per-source ring buffer has the fixed default
capacity 1000; every insertion sequence keeps a buffer within its
capacity; an insertion into a full buffer evicts the oldest entry; and for
`k ≥ 1` the recent-context queries return the `min(k, current_size)` most
recent entries (a suffix of the buffer; `k = 0` returns the whole buffer,
Python's `[-0:]`). -/
theorem ring_buffer_bounds :
    serial_buffer_maxlen = 1000
    ∧ cpu_log_buffer_maxlen = 1000
    ∧ (∀ xs : List LogEntry,
        (xs.foldl (dequeAppend serial_buffer_maxlen) []).length ≤ serial_buffer_maxlen)
    ∧ (∀ (cap : Nat) (buf : List LogEntry) (x : LogEntry), buf.length ≤ cap →
        (dequeAppend cap buf x).length ≤ cap)
    ∧ (∀ (cap : Nat) (buf : List LogEntry) (x : LogEntry), buf.length = cap → 0 < cap →
        dequeAppend cap buf x = buf.drop 1 ++ [x])
    ∧ (∀ (st : DualStreamCapture) (k : Nat), 1 ≤ k →
        (get_serial_context st k).length = min k st.serial_buffer.length ∧
        get_serial_context st k <:+ st.serial_buffer ∧
        (get_cpu_log_context st k).length = min k st.cpu_log_buffer.length ∧
        get_cpu_log_context st k <:+ st.cpu_log_buffer ∧
        (get_context st k).length = min k st.merged_timeline.length ∧
        get_context st k <:+ st.merged_timeline) := by
  have hslice : ∀ (l : List LogEntry) (k : Nat), 1 ≤ k →
      (lastSlice l k).length = min k l.length ∧ lastSlice l k <:+ l := by
    intro l k hk
    have hne : ¬ k = 0 := by omega
    constructor
    · simp only [lastSlice, hne, if_false, List.length_drop]
      omega
    · simp only [lastSlice, hne, if_false]
      exact List.drop_suffix _ _
  refine ⟨rfl, rfl, ?_, dequeAppend_length_le, ?_, ?_⟩
  · intro xs
    exact dequeAppend_foldl_le _ xs [] (by simp)
  · intro cap buf x hlen hpos
    unfold dequeAppend
    have hcond : cap < (buf ++ [x]).length := by simp [hlen]
    simp only [hcond, if_true]
    have : (buf ++ [x]).length - cap = 1 := by simp [hlen]
    rw [this, List.drop_append_of_le_length (by omega)]
  · intro st k hk
    exact ⟨(hslice _ k hk).1, (hslice _ k hk).2, (hslice _ k hk).1, (hslice _ k hk).2,
           (hslice _ k hk).1, (hslice _ k hk).2⟩

/-- C10.  Every log entry whose text contains `check_exception` makes the
monitor's per-entry crash check report the first `EXCEPTIONS` row — Divide
Error / `#DE` — whatever vector the line actually carries, because the
match condition accepts any `check_exception` line already on the first
iterated row. -/
theorem monitor_check_exception_divide_error :
    ∀ (last_rip : Option String) (timeline : List LogEntry) (entry : LogEntry),
      containsSub "check_exception".data entry.line.data = true →
      ∃ c, QemuMonitor.detect_exception last_rip timeline entry = some c ∧
        c.exception_type = "Divide Error" ∧ c.exception_code = "#DE" := by
  intro lr tl entry h
  refine ⟨monitorCrashInfo lr tl entry "Divide Error" "#DE", ?_, rfl, rfl⟩
  show detectExceptionRows lr tl entry EXCEPTIONS = _
  simp only [EXCEPTIONS, detectExceptionRows, h, Bool.or_true, if_true]

/-- C10 witness.  A `check_exception` line that actually reports vector
`0xe` (a page fault) is still classified as Divide Error / `#DE`. -/
theorem monitor_check_exception_divide_error_witness :
    ∃ c, QemuMonitor.detect_exception none []
        { timestamp := 0, source := .cpu_log,
          line := "check_exception old: 0xffffffff new 0xe", line_number := 1 } = some c ∧
      c.exception_type = "Divide Error" ∧ c.exception_code = "#DE" :=
  monitor_check_exception_divide_error none [] _ (by decide)

/-- Sequence numbers emitted by the serial producer, from any starting
state: the consecutive run starting just after the current counter. -/
theorem capture_serial_numbers (ls : List String) (st : DualStreamCapture) :
    (capture_serial st ls).2.map LogEntry.line_number =
      List.range' (st.serial_line_count + 1) ls.length := by
  induction ls generalizing st with
  | nil => rfl
  | cons l rest ih =>
    simp only [capture_serial, List.map_cons, List.length_cons, List.range'_succ]
    exact congrArg _ (ih _)

/-- Sequence numbers emitted by the CPU-log producer, from any starting
state: each read line advances the counter, but blank lines emit
nothing. -/
theorem capture_cpu_log_numbers (ls : List String) (st : DualStreamCapture) :
    (capture_cpu_log st ls).2.map LogEntry.line_number =
      (ls.zip (List.range' (st.cpu_log_line_count + 1) ls.length)).filterMap
        (fun p => if pyRstrip p.1 = "" then none else some p.2) := by
  induction ls generalizing st with
  | nil => rfl
  | cons l rest ih =>
    by_cases hb : pyRstrip l = ""
    · simp only [capture_cpu_log, hb, if_true, List.length_cons, List.range'_succ,
        List.zip_cons_cons, List.filterMap_cons]
      exact ih _
    · simp only [capture_cpu_log, hb, if_false, List.map_cons, List.length_cons,
        List.range'_succ, List.zip_cons_cons, List.filterMap_cons]
      exact congrArg _ (ih _)

/-- C2 counterexample.  Feeding the CPU-log producer the lines
`["a", "", "b"]` emits two entries whose sequence numbers are `[1, 3]` —
the blank line consumed number 2 — so the emitted numbers are not the
gap-free run `1, 2`. -/
theorem capture_cpu_log_gap_counterexample :
    ((capture_cpu_log DualStreamCapture.init ["a", "", "b"]).2.map LogEntry.line_number)
      = [1, 3]
    ∧ [1, 3] ≠
        List.range' 1 ((capture_cpu_log DualStreamCapture.init ["a", "", "b"]).2.length) := by
  decide

/-- C2 (amended).  From a fresh capture, the serial producer's emitted
sequence numbers are exactly `1, 2, …, n` with no gaps for every input
(blank lines included); the CPU-log producer numbers every line it reads
but skips lines that are blank after stripping, so its emitted numbers are
exactly the 1-based positions of the non-blank input lines — gap-free
precisely when no blank line precedes an emitted one. -/
theorem capture_line_numbers :
    (∀ ls : List String,
      (capture_serial DualStreamCapture.init ls).2.map LogEntry.line_number =
        List.range' 1 ls.length)
    ∧ (∀ ls : List String,
      (capture_cpu_log DualStreamCapture.init ls).2.map LogEntry.line_number =
        (ls.zip (List.range' 1 ls.length)).filterMap
          (fun p => if pyRstrip p.1 = "" then none else some p.2)) :=
  ⟨fun ls => capture_serial_numbers ls _, fun ls => capture_cpu_log_numbers ls _⟩

/-- The running Python `max` never drops below its current value. -/
theorem sevMaxFrom_cur_le (cur : Severity) (l : List Severity) :
    cur.rank ≤ (sevMaxFrom cur l).rank := by
  induction l generalizing cur with
  | nil => exact Nat.le_refl _
  | cons x xs ih =>
    refine Nat.le_trans ?_ (ih (if cur.rank < x.rank then x else cur))
    split <;> omega

/-- The running Python `max` dominates every element it has folded in. -/
theorem sevMaxFrom_mem_le (cur : Severity) (l : List Severity) :
    ∀ s ∈ l, s.rank ≤ (sevMaxFrom cur l).rank := by
  induction l generalizing cur with
  | nil => intro s hs; simp at hs
  | cons x xs ih =>
    intro s hs
    rcases List.mem_cons.mp hs with h | h
    · subst h
      refine Nat.le_trans ?_ (sevMaxFrom_cur_le (if cur.rank < s.rank then s else cur) xs)
      split <;> omega
    · exact ih _ s h

/-- C5.  A diagnosis produced by `analyze_crash` carries the maximum
severity of its matched patterns, and `critical` when none matched; hence
its severity dominates every matched pattern's severity. -/
theorem diagnosis_severity_is_max :
    ∀ (crash : CrashInfo) (ke : Bool) (so : Nat → Option KernelSymbol)
      (dis : Nat → Option Disassembly),
      ((analyze_crash crash ke so dis).severity =
        match (analyze_crash crash ke so dis).matching_patterns with
        | [] => Severity.critical
        | p :: ps => sevMaxFrom p.severity (ps.map Pattern.severity))
      ∧ ∀ p ∈ (analyze_crash crash ke so dis).matching_patterns,
          p.severity.rank ≤ (analyze_crash crash ke so dis).severity.rank := by
  intro crash ke so dis
  have hsev : (analyze_crash crash ke so dis).severity =
      match (analyze_crash crash ke so dis).matching_patterns with
      | [] => Severity.critical
      | p :: ps => sevMaxFrom p.severity (ps.map Pattern.severity) := rfl
  refine ⟨hsev, ?_⟩
  intro p hp
  rw [hsev]
  cases hm : (analyze_crash crash ke so dis).matching_patterns with
  | nil => rw [hm] at hp; simp at hp
  | cons q qs =>
    rw [hm] at hp
    rcases List.mem_cons.mp hp with h | h
    · subst h
      exact sevMaxFrom_cur_le _ _
    · exact sevMaxFrom_mem_le _ _ _ (List.mem_map_of_mem Pattern.severity h)

/-- C9 counterexample.  On the line `check_exception v=06 e=0002` — which
detector.py's `detect` does report, and which carries the parseable field
`e=0002` — the returned exception's `error_code` is `None`, because the
primary regex matched through its first alternative and `match.group(3)` is
empty there. -/
theorem detector_error_code_counterexample :
    ((Detector.detect {} "check_exception v=06 e=0002").2.map
        (fun e => e.error_code)) = some none
    ∧ eCode "check_exception v=06 e=0002" = some 2 := by
  decide

/-- C9 (amended).  For the state-tracking detector of
exception_detector.py, every exception reported by `detect` carries
`error_code` equal to the line's first `e=<hex>` field parsed as an
integer, and `None` when the line has no such field; the detector.py
sibling populates `error_code` only from the second-alternative capture of
its primary regex and so leaves it `None` on `check_exception` and
fallback matches. -/
theorem exception_detector_error_code :
    ∀ (st : ExceptionDetector) (line : String) (exc : CpuException),
      (ExceptionDetector.detect st line).2 = some exc →
      (eCode line = none → exc.error_code = none) ∧
      (∀ n, eCode line = some n → exc.error_code = some n) := by
  intro st line exc h
  have hec : exc.error_code = eCode line := by
    simp only [ExceptionDetector.detect] at h
    split at h
    · cases Option.some.inj h; rfl
    · cases Option.some.inj h; rfl
    · split at h
      · cases Option.some.inj h; rfl
      · exact absurd h (by simp)
  exact ⟨fun he => hec.trans he, fun n he => hec.trans he⟩

/-- C9 witness.  On the concrete line `v=0e e=0002` the detector of
exception_detector.py reports a page fault whose `error_code` is `2`. -/
theorem exception_detector_error_code_witness :
    ∃ exc, (ExceptionDetector.detect {} "v=0e e=0002").2 = some exc ∧
      exc.error_code = some 2 := by
  cases hm : (ExceptionDetector.detect {} "v=0e e=0002").2 with
  | none => exact absurd hm (by decide)
  | some exc =>
    exact ⟨exc, rfl,
      (exception_detector_error_code {} "v=0e e=0002" exc hm).2 2 (by decide)⟩

/-- C4 counterexample.  A page-fault diagnosis with CR2 = 0 produces the
source's Portuguese suggestion string, and the claimed English string
`NULL pointer dereference detected` is absent; likewise the empty-pipeline
fallback is the Portuguese sentence. -/
theorem analyze_crash_english_suggestion_counterexample :
    ((analyze_crash
        { timestamp := 0, exception_type := "Page Fault", exception_code := "#PF",
          context_lines := [], cr2 := some "0000000000000000" }
        false (fun _ => none) (fun _ => none)).exception.vector = 0x0E)
    ∧ ((analyze_crash
        { timestamp := 0, exception_type := "Page Fault", exception_code := "#PF",
          context_lines := [], cr2 := some "0000000000000000" }
        false (fun _ => none) (fun _ => none)).exception.cr2 = some "0000000000000000")
    ∧ parseHexPlain? (strip0x "0000000000000000").data = some 0
    ∧ "NULL pointer dereference detected" ∉
        (analyze_crash
          { timestamp := 0, exception_type := "Page Fault", exception_code := "#PF",
            context_lines := [], cr2 := some "0000000000000000" }
          false (fun _ => none) (fun _ => none)).suggestions
    ∧ (analyze_crash
          { timestamp := 0, exception_type := "Page Fault", exception_code := "#PF",
            context_lines := [], cr2 := some "0000000000000000" }
          false (fun _ => none) (fun _ => none)).suggestions =
        ["NULL pointer dereference detectado"]
    ∧ (analyze_crash
          { timestamp := 0, exception_type := "Divide Error", exception_code := "#DE",
            context_lines := [] }
          false (fun _ => none) (fun _ => none)).suggestions =
        ["Analisar contexto do log para mais informações"] := by
  decide

/-- C4 (amended).  For every diagnosis produced by `analyze_crash`: when
its exception has vector `0x0E` and a non-empty CR2 field whose
`0x`-stripped text parses as a hexadecimal integer below `0x1000`, the
suggestions contain the exact source string `NULL pointer dereference
detectado`; and when no pipeline stage produced a suggestion, the
suggestion list is exactly `["Analisar contexto do log para mais
informações"]`. -/
theorem analyze_crash_suggestions :
    ∀ (crash : CrashInfo) (ke : Bool) (so : Nat → Option KernelSymbol)
      (dis : Nat → Option Disassembly),
      ((analyze_crash crash ke so dis).exception.vector = 0x0E →
        ∀ c n, (analyze_crash crash ke so dis).exception.cr2 = some c → c ≠ "" →
          parseHexPlain? (strip0x c).data = some n → n < 0x1000 →
          "NULL pointer dereference detectado" ∈ (analyze_crash crash ke so dis).suggestions)
      ∧ (generate_suggestions_core (analyze_crash crash ke so dis) = [] →
          (analyze_crash crash ke so dis).suggestions =
            ["Analisar contexto do log para mais informações"]) := by
  intro crash ke so dis
  have hs : (analyze_crash crash ke so dis).suggestions =
      (if (generate_suggestions_core (analyze_crash crash ke so dis)).isEmpty
       then ["Analisar contexto do log para mais informações"]
       else generate_suggestions_core (analyze_crash crash ke so dis)) := rfl
  constructor
  · intro hvec c n hc2 hne hparse hlt
    have hcore : "NULL pointer dereference detectado" ∈
        generate_suggestions_core (analyze_crash crash ke so dis) := by
      simp only [generate_suggestions_core, hvec, hc2, hne, hparse, hlt]
      simp [hne, hlt]
    have hfalse : (generate_suggestions_core (analyze_crash crash ke so dis)).isEmpty = false := by
      cases hcc : generate_suggestions_core (analyze_crash crash ke so dis) with
      | nil => rw [hcc] at hcore; simp at hcore
      | cons a l => rfl
    rw [hs, hfalse]
    simpa using hcore
  · intro hempty
    rw [hs, hempty]
    rfl

/-- C6.  Whenever `validate_kernel` returns a result, that result is valid
exactly when the file exists, is non-empty, starts with the ELF magic
`7F 45 4C 46`, has `EI_CLASS = 2` at offset 4 and a little-endian u64 entry
point at offset 24 (hence at least 32 bytes) of at least
`0xFFFFFFFF80000000`; validity is equivalent to an empty issue list; and
for an existing non-empty file the result carries the file size and the
SHA-256 hex digest of the full contents.  (A file with the ELF magic but
fewer than 32 bytes makes `struct.unpack` raise — the `none` case.) -/
theorem validate_kernel_spec :
    ∀ (path : String) (file : Option (List Nat)) (r : ValidationResult),
      validate_kernel path file = some r →
      ((r.valid = true) ↔
        (∃ b, file = some b ∧ b ≠ [] ∧ b.take 4 = ELF_MAGIC ∧
          (b.drop 4).take 1 = [2] ∧ 32 ≤ b.length ∧
          0xFFFFFFFF80000000 ≤ leVal ((b.drop 24).take 8)))
      ∧ (r.valid = true ↔ r.issues = [])
      ∧ (∀ b, file = some b → b ≠ [] →
          r.size = b.length ∧ r.checksum = compute_checksum b) := by
  intro path file r h
  cases file with
  | none =>
    cases Option.some.inj h
    refine ⟨?_, ?_, ?_⟩
    · simp
    · simp
    · intro b hb
      exact absurd hb (by simp)
  | some b =>
    by_cases hlen : b.length = 0
    · have hb : b = [] := List.length_eq_zero.mp hlen
      simp only [validate_kernel, hlen, if_true] at h
      cases Option.some.inj h
      refine ⟨?_, ?_, ?_⟩
      · simp [hb]
      · simp
      · intro b' hb' hne
        cases Option.some.inj hb'
        exact absurd hb hne
    · by_cases hmag : b.take 4 = ELF_MAGIC
      · by_cases hent : ((b.drop 24).take 8).length < 8
        · simp only [validate_kernel, hlen, if_false, hmag, ne_eq, not_true_eq_false,
            if_true, hent] at h
          exact Option.noConfusion h
        · have hlen32 : 32 ≤ b.length := by
            have := List.length_take 8 (b.drop 24)
            have := List.length_drop 24 b
            omega
          simp only [validate_kernel, hlen, if_false, hmag, ne_eq, not_true_eq_false,
            if_true, hent] at h
          cases Option.some.inj h
          constructor
          · constructor
            · intro hv
              refine ⟨b, rfl, fun he => hlen (by simp [he]), hmag, ?_, hlen32, ?_⟩
              · by_contra hcls
                simp [hcls, List.isEmpty_iff] at hv
              · by_contra hent2
                simp only [not_le] at hent2
                simp [hent2, List.isEmpty_iff] at hv
            · rintro ⟨b', hb', -, -, hcls, -, hent2⟩
              cases Option.some.inj hb'
              simp [hcls, Nat.not_lt.mpr hent2, List.isEmpty_iff]
          constructor
          · simp [List.isEmpty_iff]
          · intro b' hb' _
            cases Option.some.inj hb'
            exact ⟨rfl, rfl⟩
      · simp only [validate_kernel, hlen, if_false, hmag, ne_eq, not_false_eq_true,
          if_true] at h
        cases Option.some.inj h
        refine ⟨?_, ?_, ?_⟩
        · constructor
          · intro hv; simp at hv
          · rintro ⟨b', hb', -, hmag', -⟩
            cases Option.some.inj hb'
            exact absurd hmag' hmag
        · constructor
          · intro hv; simp at hv
          · intro hi; simp at hi
        · intro b' hb' _
          cases Option.some.inj hb'
          exact ⟨rfl, rfl⟩

/-- C6 witness.  The concrete 32-byte well-formed kernel image validates
successfully with an empty issue list. -/
theorem validate_kernel_spec_witness :
    ∃ r, validate_kernel "kernel" (some goodKernelBytes) = some r ∧
      r.valid = true ∧ r.issues = [] := by
  obtain ⟨r, hr⟩ : ∃ r, validate_kernel "kernel" (some goodKernelBytes) = some r := ⟨_, rfl⟩
  have spec := validate_kernel_spec "kernel" (some goodKernelBytes) r hr
  have hv : r.valid = true :=
    spec.1.mpr ⟨goodKernelBytes, rfl, by decide, by decide, by decide, by decide, by decide⟩
  exact ⟨r, hr, hv, spec.2.1.mp hv⟩
